import Mathlib

/-!
Verification of the JustStreamIt front-end data pipeline.

This file is a shallow embedding, in Lean 4, of the browser-side rendering
layer of the JustStreamIt movie page: the paginated fetch helpers
(`fetchPage`, `fetchGenres`, `fetchMultiplePages`), the category rendering
decision logic (`displayCategory` in html_inject.js, `displayCategoryMovies`
in categories.js), the image fallback machinery (`setupImage`,
`createFallbackImageUrl`, the modal poster handler), the card builder
(`createMovieCard`), the dropdown default selection, the modal close logic
(`closeModal`) and the box-office formatter (`formatBoxOffice`).

Modelling conventions:
- Network effects are made explicit: a fetch function of type
  `Nat → Option (Envelope α)` stands for the backend, mapping a page number
  to the envelope the page fetcher hands back (`none` = the fetcher returned
  null after a network/HTTP/parse failure).
- JS truthiness is modelled per use site: `Option.isSome` for objects,
  emptiness for strings, `= 0` for numbers.
- JS numbers are modelled as `Int`/`Nat`; `toFixed(1)` and
  `toLocaleString` are modelled as exact decimal rounding on rationals
  `n / 10^k` (the source values are integers, exactly representable;
  double-rounding artefacts at decimal midpoints are outside the claims
  checked here).
- DOM nodes are modelled by records of their observable fields (src, alt,
  text content, dataset values, installed handlers).
-/

set_option maxRecDepth 4096

/-! ## Pagination envelopes and the backend model -/

/-- A backend pagination envelope `{ results, next }`.
`results = none` models a response object whose `results` field is
null/undefined (JS falsy); `next` is the truthiness of the `next` field. -/
structure Envelope (α : Type) where
  results : Option (List α)
  next : Bool
deriving DecidableEq, Repr

/-- The movies contributed by one page response: a null response or a
response without a `results` array contributes nothing (this is the
`if (response && response.results)` guard in the aggregators). -/
def pageResults {α : Type} (r : Option (Envelope α)) : List α :=
  match r with
  | some e => e.results.getD []
  | none => []

/-- `Math.ceil(movieCount / 5)`: number of pages needed at page size 5. -/
def pagesNeeded (movieCount : Nat) : Nat :=
  (movieCount + 4) / 5

/-- The page responses gathered by `Promise.all` for pages `1..pagesNeeded`,
in page-number order (Promise.all preserves argument order). -/
def pageResponses {α : Type} (movieCount : Nat) (fetch : Nat → Option (Envelope α)) :
    List (Option (Envelope α)) :=
  (List.range (pagesNeeded movieCount)).map (fun i => fetch (i + 1))

/-- The `responses.forEach(... allMovies.concat ...)` accumulation loop shared
by `fetchMultiplePages` (categories.js) and `displayCategory`
(html_inject.js). -/
def combineResults {α : Type} (responses : List (Option (Envelope α))) : List α :=
  responses.foldl
    (fun acc r =>
      match r with
      | some e =>
        match e.results with
        | some rs => acc ++ rs
        | none => acc
      | none => acc)
    []

/-- `fetchMultiplePages(movieCount, queryParams)` from categories.js:
fetch pages `1..ceil(movieCount/5)` concurrently, concatenate the results
of the successful ones in page order, and truncate with
`allMovies.slice(0, movieCount)`. -/
def fetchMultiplePages {α : Type} (movieCount : Nat)
    (fetch : Nat → Option (Envelope α)) : List α :=
  (combineResults (pageResponses movieCount fetch)).take movieCount

/-- The rendering decision of `displayCategory` from html_inject.js.
`none` models the early `return` (no cards injected); `some ms` models the
grid being cleared and one card injected per element of `ms`.
The guard is `if (!responses[0] || !responses[0].results) return;`
(`responses[0]` is `undefined`, hence falsy, when no page was requested). -/
def displayCategory {α : Type} (movieCount : Nat)
    (fetch : Nat → Option (Envelope α)) : Option (List α) :=
  match (pageResponses movieCount fetch).head? with
  | none => none
  | some none => none
  | some (some e) =>
    match e.results with
    | none => none
    | some _ => some ((combineResults (pageResponses movieCount fetch)).take movieCount)

/-- The rendering decision of `displayCategoryMovies` from categories.js.
Its only abort condition on the data path is `if (movies.length === 0)`;
the DOM container is assumed present (its absence is an orthogonal
configuration error). -/
def displayCategoryMovies {α : Type} (movieCount : Nat)
    (fetch : Nat → Option (Envelope α)) : Option (List α) :=
  let movies := fetchMultiplePages movieCount fetch
  if movies.length = 0 then none else some movies

/-- An ideal backend serving the item list `items` in pages of 5:
page `p` (1-based) answers with the `p`-th slice and some `next` flag.
Used to state "all fetched pages succeed". -/
def backendFetch {α : Type} (items : List α) (p : Nat) : Option (Envelope α) :=
  some { results := some ((items.drop ((p - 1) * 5)).take 5), next := true }

/-! ## Genre aggregation (`fetchGenres`, api.js / fecth_functions.js) -/

/-- The body of the `for (let page = 1; page <= maxPages; page++)` loop of
`fetchGenres`: fuel counts the remaining iterations. Each iteration fetches
`page`; a null envelope stops the loop (`if (!data || !data.next) break`)
contributing nothing; otherwise the results (when present) are appended and
the loop continues only when `next` is truthy. -/
def fetchGenresLoop {α : Type} (fetch : Nat → Option (Envelope α)) :
    Nat → Nat → List α → List α
  | 0, _, acc => acc
  | Nat.succ n, page, acc =>
    match fetch page with
    | none => acc
    | some e =>
      let acc2 := acc ++ e.results.getD []
      if e.next then fetchGenresLoop fetch n (page + 1) acc2 else acc2

/-- `fetchGenres(maxPages = 5)`: sequential page loop starting at page 1 with
an empty accumulator. The surrounding try/catch never fires (the page
fetcher already converts failures to null), so the function always returns
the accumulated list. -/
def fetchGenres {α : Type} (fetch : Nat → Option (Envelope α)) (maxPages : Nat) : List α :=
  fetchGenresLoop fetch maxPages 1 []

/-! ## The page fetcher (`fetchPage`) -/

/-- Outcome of one `fetch(fullUrl)` call as observed by `fetchPage`:
either the promise rejects (network error), or a response arrives with an
`ok` flag and a body whose JSON parse either succeeds or fails. -/
inductive FetchOutcome (J : Type) where
  | networkError
  | response (ok : Bool) (body : Except String J)

/-- URL building in `fetchPage`: `` `${url}?page=${page}` `` then
`if (queryParams) fullUrl += '&' + queryParams` (empty string is falsy). -/
def buildPageUrl (url : String) (page : Nat) (args : String) : String :=
  let fullUrl := url ++ "?page=" ++ toString page
  if args.data.isEmpty then fullUrl else fullUrl ++ "&" ++ args

/-- `fetchPage(url, page, queryParams)`: throws on `!response.ok`, awaits
`response.json()`, and the surrounding try/catch converts every failure
(network rejection, non-ok status, JSON parse failure) into `null`. -/
def fetchPage {J : Type} (net : String → FetchOutcome J)
    (url : String) (page : Nat) (args : String) : Option J :=
  match net (buildPageUrl url page args) with
  | .networkError => none
  | .response ok body =>
    if ok then
      match body with
      | .ok d => some d
      | .error _ => none
    else none

/-! ## Image fallback machinery (ui-components.js, modal.js) -/

/-- UTF-8 encoding of one code point (standard 1..4 byte scheme). -/
def utf8Bytes (c : Char) : List Nat :=
  let n := c.toNat
  if n < 128 then [n]
  else if n < 2048 then [192 + n / 64, 128 + n % 64]
  else if n < 65536 then [224 + n / 4096, 128 + (n / 64) % 64, 128 + n % 64]
  else [240 + n / 262144, 128 + (n / 4096) % 64, 128 + (n / 64) % 64, 128 + n % 64]

/-- Bytes kept verbatim by `encodeURIComponent`: ASCII alphanumerics and
`- _ . ! ~ * ( )` and the apostrophe (byte 39). -/
def isUnreservedByte (b : Nat) : Bool :=
  decide ((65 ≤ b ∧ b ≤ 90) ∨ (97 ≤ b ∧ b ≤ 122) ∨ (48 ≤ b ∧ b ≤ 57) ∨
    b = 45 ∨ b = 95 ∨ b = 46 ∨ b = 33 ∨ b = 126 ∨ b = 42 ∨ b = 39 ∨ b = 40 ∨ b = 41)

/-- Uppercase hexadecimal digit for `0 ≤ n < 16`. -/
def hexDigitChar (n : Nat) : Char :=
  if n < 10 then Char.ofNat (48 + n) else Char.ofNat (55 + n)

/-- One byte of `encodeURIComponent` output: kept verbatim or percent-encoded
with uppercase hex. -/
def encodeByte (b : Nat) : String :=
  if isUnreservedByte b then String.mk [Char.ofNat b]
  else String.mk [Char.ofNat 37, hexDigitChar (b / 16), hexDigitChar (b % 16)]

/-- JS `encodeURIComponent`: UTF-8 encode, percent-encode reserved bytes. -/
def encodeURIComponent (s : String) : String :=
  String.join ((s.data.map utf8Bytes).flatten.map encodeByte)

/-- JS string truthiness for an optional string field: null/undefined and the
empty string are falsy. -/
def strTruthy (s : Option String) : Bool :=
  match s with
  | some str => !str.data.isEmpty
  | none => false

/-- `createFallbackImageUrl(text, width, height)` (ui-components.js): the
generated grey SVG data URI with `text` (URI-encoded) as visible label.
`\x27` is the single-quote character appearing in the source template. -/
def createFallbackImageUrl (text : String) (width height : Nat) : String :=
  "data:image/svg+xml,%3Csvg xmlns=\x27http://www.w3.org/2000/svg\x27 width=\x27"
    ++ toString width ++ "\x27 height=\x27" ++ toString height
    ++ "\x27%3E%3Crect width=\x27" ++ toString width ++ "\x27 height=\x27"
    ++ toString height
    ++ "\x27 fill=\x27%23666666\x27/%3E%3Ctext x=\x2750%25\x27 y=\x2750%25\x27 dominant-baseline=\x27middle\x27 text-anchor=\x27middle\x27 font-family=\x27Arial\x27 font-size=\x2720\x27 fill=\x27white\x27%3E"
    ++ encodeURIComponent text ++ "%3C/text%3E%3C/svg%3E"

/-- The fixed fallback data URI of the modal poster handler (modal.js line
102): 210x315, font-size 16, literal label `Image non disponible` (the
movie title does not appear in it). -/
def modalPosterFallbackUrl : String :=
  "data:image/svg+xml,%3Csvg xmlns=\x27http://www.w3.org/2000/svg\x27 width=\x27210\x27 height=\x27315\x27%3E%3Crect width=\x27210\x27 height=\x27315\x27 fill=\x27%23666666\x27/%3E%3Ctext x=\x2750%25\x27 y=\x2750%25\x27 dominant-baseline=\x27middle\x27 text-anchor=\x27middle\x27 font-family=\x27Arial\x27 font-size=\x2716\x27 fill=\x27white\x27%3EImage non disponible%3C/text%3E%3C/svg%3E"

/-- Observable state of an `<img>` element: its `src`, its `alt`, whether an
`onerror` handler is currently installed, and the `errorHandled` closure
flag used by `setupImage` (false and unused for handlers without it). -/
structure ImgState where
  src : String
  alt : String
  onerrorInstalled : Bool
  errorHandled : Bool
deriving DecidableEq, Repr

/-- `setupImage(imgElement, imageUrl, altText, width, height)`
(ui-components.js): installs the guarded onerror handler, then sets `src`
to `imageUrl` when truthy and to the generated fallback otherwise (a `data:`
URI, so no network request is issued for it). -/
def setupImage (imageUrl : Option String) (altText : String) (width height : Nat) :
    ImgState :=
  { alt := altText
    onerrorInstalled := true
    errorHandled := false
    src :=
      if strTruthy imageUrl then imageUrl.getD ""
      else createFallbackImageUrl altText width height }

/-- One image-load-failure event on an image configured by `setupImage`:
the handler (when still installed and not yet run, per the `errorHandled`
flag) clears itself (`this.onerror = null`) and swaps `src` for the
fallback; otherwise nothing happens. -/
def fireImageError (altText : String) (width height : Nat) (s : ImgState) : ImgState :=
  if s.onerrorInstalled then
    if s.errorHandled then s
    else
      { src := createFallbackImageUrl altText width height
        alt := s.alt
        onerrorInstalled := false
        errorHandled := true }
  else s

/-- JS `a || b` for an optional string `a` with string default `b`. -/
def jsOrStr (a : Option String) (b : String) : String :=
  if strTruthy a then a.getD "" else b

/-- The modal poster slot as configured by `MovieModal.createModal`
(modal.js lines 97-103): `src = movie.image_url || ''`, alt from the title,
and an onerror handler with no guard flag and no self-removal. -/
def modalPosterInit (title : String) (image_url : Option String) : ImgState :=
  { src := jsOrStr image_url ""
    alt := "Affiche " ++ title
    onerrorInstalled := true
    errorHandled := false }

/-- One image-load-failure event on the modal poster: the (permanently
installed) handler swaps `src` for the fixed `Image non disponible`
placeholder; it never uninstalls itself. -/
def fireModalPosterError (s : ImgState) : ImgState :=
  if s.onerrorInstalled then { s with src := modalPosterFallbackUrl } else s

/-! ## Movie cards (`createMovieCard`, ui-components.js and html_inject.js) -/

/-- The movie-record fields a card consumes. -/
structure Movie where
  id : Nat
  title : String
  image_url : Option String
deriving DecidableEq, Repr

/-- Observable content of one rendered card: title text, the
`data-movie-id` dataset value (stringified id), and the image state. -/
structure Card where
  titleText : String
  movieId : String
  img : ImgState
deriving DecidableEq, Repr

/-- `createMovieCard(movie)` (ui-components.js): null when the template is
missing; otherwise a detached clone with title text, movie id dataset and
an image configured by `setupImage` with alt `Affiche <title>`, 300x300. -/
def createMovieCard (templatePresent : Bool) (m : Movie) : Option Card :=
  if templatePresent then
    some
      { titleText := m.title
        movieId := toString m.id
        img := setupImage m.image_url ("Affiche " ++ m.title) 300 300 }
  else none

/-- The near-duplicate `createMovieCard` of html_inject.js: same fields, but
the inline fallback embeds `movie.title` itself (not the alt text) in a
300x300 placeholder, with the same guarded once-only onerror logic. -/
def createMovieCardHtmlInject (templatePresent : Bool) (m : Movie) : Option Card :=
  if templatePresent then
    some
      { titleText := m.title
        movieId := toString m.id
        img :=
          { alt := "Affiche " ++ m.title
            onerrorInstalled := true
            errorHandled := false
            src :=
              if strTruthy m.image_url then m.image_url.getD ""
              else createFallbackImageUrl m.title 300 300 } }
  else none

/-! ## Dropdown default genres (categories.js / html_inject.js bootstrap) -/

/-- A `{ label, value }` genre option as built from the API genre list. -/
structure Genre where
  label : String
  value : String
deriving DecidableEq, Repr

/-- JS `a || b` on objects: any object is truthy, undefined is falsy. -/
def jsOr {α : Type} (a b : Option α) : Option α :=
  match a with
  | some x => some x
  | none => b

/-- The default genres of the two dropdown categories in
`initializeCategories` (categories.js):
`availableGenres[2] || availableGenres[0]` and
`availableGenres[3] || availableGenres[1]`. -/
def initializeCategoriesDefaults (availableGenres : List Genre) :
    Option Genre × Option Genre :=
  (jsOr availableGenres[2]? availableGenres[0]?,
   jsOr availableGenres[3]? availableGenres[1]?)

/-- The default genres of the two dropdown categories in `injectCategories`
(html_inject.js): `availableGenres[2]` and `availableGenres[3]`, with no
fallback expression. -/
def injectCategoriesDefaults (availableGenres : List Genre) :
    Option Genre × Option Genre :=
  (availableGenres[2]?, availableGenres[3]?)

/-! ## Modal close (`MovieModal.closeModal`, modal.js) -/

/-- A held modal overlay node; `attached` is the truthiness of its
`parentElement`. -/
structure ModalNode where
  attached : Bool
deriving DecidableEq, Repr

/-- The state `closeModal` reads and writes: the stored `this.modal`
reference and `document.body.style.overflow`. -/
structure ModalUIState where
  modal : Option ModalNode
  bodyOverflow : String
deriving DecidableEq, Repr

/-- `closeModal()` (modal.js): only when a modal reference is held and the
node is attached (`this.modal && this.modal.parentElement`) does it remove
the node, null the reference and reset the body overflow to `""`. -/
def closeModal (s : ModalUIState) : ModalUIState :=
  match s.modal with
  | some node =>
    if node.attached then { modal := none, bodyOverflow := "" } else s
  | none => s

/-! ## Box-office formatting (`MovieModal.formatBoxOffice`, modal.js) -/

/-- The JS value passed to `formatBoxOffice`: a number, a string, or
null/undefined (both behave identically there, so one constructor). -/
inductive BoxAmount where
  | num (n : Int)
  | str (s : String)
  | nullish
deriving DecidableEq, Repr

/-- JS falsiness of the amount (`if (!amount)`): 0, the empty string,
null and undefined. -/
def amountFalsy : BoxAmount → Bool
  | .num n => n == 0
  | .str s => s.data.isEmpty
  | .nullish => true

/-- The regex `/^\$/` test: the dollar sign is code point 36. -/
def startsWithDollar (s : String) : Bool :=
  match s.data with
  | c :: _ => c.toNat == 36
  | [] => false

/-- ASCII decimal digit (code points 48-57), the `\d` class. -/
def isDigitChar (c : Char) : Bool :=
  decide (48 ≤ c.toNat ∧ c.toNat ≤ 57)

/-- One character of the `[\d,.]` class: digit, comma (44) or dot (46). -/
def isNumRunChar (c : Char) : Bool :=
  isDigitChar c || c.toNat == 44 || c.toNat == 46

/-- `amount.match(/[\d,.]+/)`: the first maximal run of digits, commas and
dots, or `none` when the string has no such character. -/
def firstNumRun : List Char → Option (List Char)
  | [] => none
  | c :: rest =>
    if isNumRunChar c then some (c :: rest.takeWhile isNumRunChar)
    else firstNumRun rest

/-- `match[0].replace(/,/g, '')`. -/
def stripCommas (l : List Char) : List Char :=
  l.filter (fun c => c.toNat != 44)

/-- Value of a list of decimal digit characters. -/
def digitsToNat (l : List Char) : Nat :=
  l.foldl (fun acc c => 10 * acc + (c.toNat - 48)) 0

/-- `parseFloat` on the comma-stripped match: it reads leading digits, then
an optional dot and further digits, and is NaN (`none`) exactly when
neither part contains a digit. The value is returned as
`(numerator, fractional-digit count)`, i.e. `v / 10^k`. -/
def jsParseFloat (l : List Char) : Option (Nat × Nat) :=
  let intPart := l.takeWhile isDigitChar
  match l.dropWhile isDigitChar with
  | c :: rest =>
    if c.toNat == 46 then
      let fracPart := rest.takeWhile isDigitChar
      if intPart.isEmpty && fracPart.isEmpty then none
      else some (digitsToNat (intPart ++ fracPart), fracPart.length)
    else if intPart.isEmpty then none
    else some (digitsToNat intPart, 0)
  | [] => if intPart.isEmpty then none else some (digitsToNat intPart, 0)

/-- `en-US` digit grouping of a natural number: a comma (code 44) before
every group of three digits from the right. -/
def groupThousands (n : Nat) : String :=
  let ds := (toString n).data
  let len := ds.length
  String.mk
    ((ds.enum.map
        (fun p =>
          if p.1 ≠ 0 ∧ (len - p.1) % 3 = 0 then [Char.ofNat 44, p.2] else [p.2])).flatten)

/-- `n.toLocaleString('en-US')` for an integer amount. -/
def intToLocaleString (n : Int) : String :=
  if n < 0 then "-" ++ groupThousands n.natAbs else groupThousands n.natAbs

/-- `(n / 1000000).toFixed(1)` for the (positive) million-range branch:
round `n / 10^5` to the nearer integer, ties away from zero, and print one
forced decimal digit; `toFixed` uses no digit grouping. -/
def toFixedOneMillions (n : Int) : String :=
  let m := n.toNat
  let r := (2 * m + 100000) / 200000
  toString (r / 10) ++ "." ++ toString (r % 10)

/-- `numAmount.toLocaleString('en-US', { minimumFractionDigits: 0,
maximumFractionDigits: 1 })` on the parsed value `v / 10^k`: round to at
most one decimal digit (ties away from zero), group the integer part, and
omit a zero fraction. -/
def localeStringMaxOne (v k : Nat) : String :=
  let p := 10 ^ k
  let r := (20 * v + p) / (2 * p)
  groupThousands (r / 10) ++ (if r % 10 = 0 then "" else "." ++ toString (r % 10))

/-- `MovieModal.formatBoxOffice(amount)` (modal.js lines 184-214). In the
`Int` model of JS numbers `Number(amount)` is never NaN, so the
`isNaN(numAmount)` early return of the number branch is unreachable. -/
def formatBoxOffice (amount : BoxAmount) : String :=
  if amountFalsy amount then "Non renseigné"
  else
    match amount with
    | .nullish => "Non renseigné"
    | .str s =>
      if startsWithDollar s then s
      else
        match firstNumRun s.data with
        | some m =>
          match jsParseFloat (stripCommas m) with
          | some v => "$" ++ localeStringMaxOne v.1 v.2 ++ "m"
          | none => s
        | none => s
    | .num n =>
      if 1000000 ≤ n then "$" ++ toFixedOneMillions n ++ "m"
      else "$" ++ intToLocaleString n

/-! ## Concrete instances used by witnesses and counterexamples -/

/-- A 12-item backend catalogue (3 pages of 5, 5, 2). -/
def itemsC1 : List String :=
  ["m1", "m2", "m3", "m4", "m5", "m6", "m7", "m8", "m9", "m10", "m11", "m12"]

/-- Backend where page 1 succeeds and every later page fails. -/
def exFetchFirstOk : Nat → Option (Envelope String) := fun p =>
  if p = 1 then some { results := some ["a"], next := true } else none

/-- Backend where page 1 fails (null) and page 2 succeeds. -/
def exFetchFirstNull : Nat → Option (Envelope String) := fun p =>
  if p = 2 then some { results := some ["m6"], next := false } else none

/-- Backend with two genre pages, the second one last (`next` falsy). -/
def exFetchGenres : Nat → Option (Envelope String) := fun p =>
  if p = 1 then some { results := some ["g1"], next := true }
  else if p = 2 then some { results := some ["g2"], next := false }
  else none

/-! ## Helper lemmas -/

/-- Accumulator lemma for the `forEach` concatenation loop. -/
theorem combineResults_foldl_append {α : Type} (rs : List (Option (Envelope α))) :
    ∀ acc : List α,
      rs.foldl
          (fun acc r =>
            match r with
            | some e =>
              match e.results with
              | some more => acc ++ more
              | none => acc
            | none => acc)
          acc
        = acc ++ (rs.map pageResults).flatten := by
  induction rs with
  | nil => intro acc; simp
  | cons r rest ih =>
    intro acc
    simp only [List.foldl_cons, List.map_cons, List.flatten_cons]
    cases r with
    | none => rw [ih]; simp [pageResults]
    | some e =>
      cases h : e.results with
      | none => rw [ih]; simp [pageResults, h]
      | some more => rw [ih]; simp [pageResults, h]

/-- The concatenation loop flattens the per-page results in page order. -/
theorem combineResults_eq_flatten {α : Type} (rs : List (Option (Envelope α))) :
    combineResults rs = (rs.map pageResults).flatten := by
  rw [combineResults, combineResults_foldl_append]
  simp

/-- Concatenating the first `n` pages of 5 of a catalogue yields its first
`5 * n` items. -/
theorem slices_flatten {α : Type} (items : List α) :
    ∀ n : Nat,
      ((List.range n).map (fun i => (items.drop (i * 5)).take 5)).flatten =
        items.take (5 * n) := by
  intro n
  induction n with
  | zero => simp
  | succ k ih =>
    rw [List.range_succ, List.map_append, List.flatten_append]
    simp only [List.map_cons, List.map_nil, List.flatten_cons, List.flatten_nil,
      List.append_nil]
    rw [ih, show 5 * (k + 1) = 5 * k + 5 by ring, List.take_add, Nat.mul_comm]

/-- When at least one page is requested, the first gathered response is the
fetch of page 1. -/
theorem pageResponses_head {α : Type} (movieCount : Nat)
    (fetch : Nat → Option (Envelope α)) (h : 1 ≤ pagesNeeded movieCount) :
    (pageResponses movieCount fetch).head? = some (fetch 1) := by
  rw [pageResponses]
  obtain ⟨m, hm⟩ : ∃ m, pagesNeeded movieCount = m + 1 :=
    ⟨pagesNeeded movieCount - 1, by omega⟩
  rw [hm, List.range_succ_eq_map]
  simp

/-! ## C1 -/

/-- C1: for every requested count and backend, the aggregation of
`fetchMultiplePages` (and of `displayCategory`, when it renders) is the
concatenation, in page-number order, of the results of pages
`1..ceil(count/5)` that returned usable envelopes, truncated to `count`
items; the result never exceeds `count` items, and when every fetched page
succeeds against a catalogue its length is `min count (total available)`. -/
theorem fetchMultiplePages_aggregation_spec {α : Type} (movieCount : Nat)
    (fetch : Nat → Option (Envelope α)) :
    fetchMultiplePages movieCount fetch =
      (((List.range (pagesNeeded movieCount)).map
          (fun i => pageResults (fetch (i + 1)))).flatten).take movieCount
    ∧ (fetchMultiplePages movieCount fetch).length ≤ movieCount
    ∧ (∀ ms, displayCategory movieCount fetch = some ms →
        ms = fetchMultiplePages movieCount fetch)
    ∧ ∀ items : List α,
        (∀ p, 1 ≤ p → p ≤ pagesNeeded movieCount → fetch p = backendFetch items p) →
        (fetchMultiplePages movieCount fetch).length = min movieCount items.length := by
  have hflat : fetchMultiplePages movieCount fetch =
      (((List.range (pagesNeeded movieCount)).map
          (fun i => pageResults (fetch (i + 1)))).flatten).take movieCount := by
    rw [fetchMultiplePages, combineResults_eq_flatten, pageResponses, List.map_map]
    rfl
  refine ⟨hflat, ?_, ?_, ?_⟩
  · rw [hflat]
    have := List.length_take movieCount
      (((List.range (pagesNeeded movieCount)).map
          (fun i => pageResults (fetch (i + 1)))).flatten)
    omega
  · intro ms h
    rw [displayCategory] at h
    split at h
    · exact absurd h (by simp)
    · exact absurd h (by simp)
    · split at h
      · exact absurd h (by simp)
      · rw [fetchMultiplePages]
        exact (Option.some.injEq _ _ ▸ h).symm
  · intro items hall
    rw [hflat]
    have hmap : (List.range (pagesNeeded movieCount)).map
        (fun i => pageResults (fetch (i + 1))) =
        (List.range (pagesNeeded movieCount)).map
          (fun i => (items.drop (i * 5)).take 5) := by
      apply List.map_congr_left
      intro i hi
      rw [List.mem_range] at hi
      rw [hall (i + 1) (by omega) (by omega)]
      simp [backendFetch, pageResults]
    rw [hmap, slices_flatten, List.length_take, List.length_take]
    have hcnt : movieCount ≤ 5 * pagesNeeded movieCount := by
      rw [pagesNeeded]; omega
    omega

/-- Witness for C1: a request of 10 against the 12-item catalogue, all pages
succeeding, yields exactly `min 10 12 = 10` movies, pages 1-2 in full. -/
theorem c1_witness :
    (∀ p, 1 ≤ p → p ≤ pagesNeeded 10 → backendFetch itemsC1 p = backendFetch itemsC1 p)
    ∧ (fetchMultiplePages 10 (backendFetch itemsC1)).length = min 10 itemsC1.length
    ∧ fetchMultiplePages 10 (backendFetch itemsC1) =
        ["m1", "m2", "m3", "m4", "m5", "m6", "m7", "m8", "m9", "m10"] :=
  ⟨fun _ _ _ => rfl,
   (fetchMultiplePages_aggregation_spec 10 (backendFetch itemsC1)).2.2.2 itemsC1
     (fun _ _ _ => rfl),
   by decide⟩

/-! ## C2 -/

/-- C2 counterexample: with a 6-item request whose page-1 fetch yields null
and whose page-2 fetch succeeds, `displayCategoryMovies` (categories.js)
does NOT abort: it renders the partial list built from the later page, so
the claim "for every category render ... a partial list built from later
successful pages is never rendered" is false on this input. -/
theorem c2_counterexample :
    exFetchFirstNull 1 = none
    ∧ displayCategoryMovies 6 exFetchFirstNull = some ["m6"]
    ∧ displayCategoryMovies 6 exFetchFirstNull ≠ none := by
  refine ⟨rfl, by decide, by decide⟩

/-- C2 (amended): in the html_inject.js `displayCategory` path a null first
page aborts rendering with no cards, and a null later page only shortens
the aggregated list (the rendered list is the ordinary aggregation); in the
categories.js `displayCategoryMovies` path the abort condition is instead
emptiness of the aggregated list, so a null first page aborts only when no
fetched page contributed anything. -/
theorem displayCategory_first_page_policy {α : Type} (movieCount : Nat)
    (fetch : Nat → Option (Envelope α)) :
    (fetch 1 = none → displayCategory movieCount fetch = none)
    ∧ (∀ e rs, fetch 1 = some e → e.results = some rs → 1 ≤ pagesNeeded movieCount →
        displayCategory movieCount fetch = some (fetchMultiplePages movieCount fetch))
    ∧ (displayCategoryMovies movieCount fetch = none ↔
        fetchMultiplePages movieCount fetch = []) := by
  refine ⟨?_, ?_, ?_⟩
  · intro h1
    rw [displayCategory]
    by_cases hp : 1 ≤ pagesNeeded movieCount
    · rw [pageResponses_head movieCount fetch hp, h1]
    · have : pagesNeeded movieCount = 0 := by omega
      rw [pageResponses, this]
      simp
  · intro e rs h1 hrs hp
    simp [displayCategory, pageResponses_head movieCount fetch hp, h1, hrs,
      fetchMultiplePages]
  · rw [displayCategoryMovies]
    by_cases h : (fetchMultiplePages movieCount fetch).length = 0
    · simp only [h, if_true, true_iff]
      exact List.length_eq_zero.mp h
    · simp only [h, if_false]
      constructor
      · intro hc; exact absurd hc (by simp)
      · intro hc; exact absurd (congrArg List.length hc) (by simpa using h)

/-- Witness for C2 (amended): page 1 succeeding and page 2 null renders the
shortened list; page 1 null aborts with no cards. -/
theorem c2_witness :
    exFetchFirstOk 2 = none
    ∧ displayCategory 6 exFetchFirstOk = some ["a"]
    ∧ exFetchFirstNull 1 = none
    ∧ displayCategory 6 exFetchFirstNull = none := by
  refine ⟨rfl, ?_, rfl, ?_⟩
  · have h := (displayCategory_first_page_policy 6 exFetchFirstOk).2.1
      { results := some ["a"], next := true } ["a"] rfl rfl (by decide)
    rw [h]; decide
  · exact (displayCategory_first_page_policy 6 exFetchFirstNull).1 rfl

/-! ## C3 -/

/-- Accumulator lemma for the genre page loop. -/
theorem fetchGenresLoop_append {α : Type} (fetch : Nat → Option (Envelope α)) :
    ∀ (n page : Nat) (acc : List α),
      fetchGenresLoop fetch n page acc = acc ++ fetchGenresLoop fetch n page [] := by
  intro n
  induction n with
  | zero => intro page acc; simp [fetchGenresLoop]
  | succ k ih =>
    intro page acc
    rw [fetchGenresLoop, fetchGenresLoop]
    cases h : fetch page with
    | none => simp
    | some e =>
      cases hn : e.next with
      | false => simp [hn]
      | true =>
        simp only [hn, if_true]
        rw [ih (page + 1) (acc ++ e.results.getD []),
          ih (page + 1) ([] ++ e.results.getD [])]
        simp

/-- Characterisation of the genre page loop: under the continue conditions
for the first `k'` pages and a stop condition at page `page + k'`, the loop
returns the concatenation of the results of the `k' + 1` visited pages. -/
theorem fetchGenresLoop_spec {α : Type} (fetch : Nat → Option (Envelope α)) :
    ∀ (k' n page : Nat), k' + 1 ≤ n →
      (∀ j, j < k' → ∃ e, fetch (page + j) = some e ∧ e.next = true) →
      (k' + 1 = n ∨ fetch (page + k') = none ∨
        ∃ e, fetch (page + k') = some e ∧ e.next = false) →
      fetchGenresLoop fetch n page [] =
        ((List.range (k' + 1)).map (fun i => pageResults (fetch (page + i)))).flatten := by
  intro k'
  induction k' with
  | zero =>
    intro n page hn _ hstop
    obtain ⟨m, rfl⟩ : ∃ m, n = m + 1 := ⟨n - 1, by omega⟩
    rw [fetchGenresLoop]
    simp only [List.range_succ_eq_map, List.range_zero, List.map_nil, List.map_cons,
      List.flatten_cons, List.flatten_nil, List.append_nil, Nat.add_zero]
    cases h : fetch page with
    | none => simp [pageResults]
    | some e =>
      rcases hstop with hm | hnone | ⟨e', he', hnext⟩
      · have : m = 0 := by omega
        subst this
        cases hn : e.next <;> simp [hn, fetchGenresLoop, pageResults, h]
      · rw [Nat.add_zero] at hnone
        exact absurd (h ▸ hnone) (by simp)
      · rw [Nat.add_zero, h] at he'
        have he : e = e' := by injection he'
        subst he
        simp [hnext, pageResults, h]
  | succ k ih =>
    intro n page hn hgood hstop
    obtain ⟨m, rfl⟩ : ∃ m, n = m + 1 := ⟨n - 1, by omega⟩
    obtain ⟨e, he, hnext⟩ := hgood 0 (by omega)
    rw [Nat.add_zero] at he
    rw [fetchGenresLoop, he]
    simp only [hnext, if_true]
    rw [fetchGenresLoop_append fetch m (page + 1) ([] ++ e.results.getD [])]
    have hrec := ih m (page + 1) (by omega)
      (fun j hj => by
        obtain ⟨e', he', hn'⟩ := hgood (j + 1) (by omega)
        exact ⟨e', by rwa [show page + 1 + j = page + (j + 1) by omega], hn'⟩)
      (by
        rcases hstop with hs | hs | ⟨e', he', hn'⟩
        · exact Or.inl (by omega)
        · exact Or.inr (Or.inl (by rwa [show page + 1 + k = page + (k + 1) by omega]))
        · exact Or.inr (Or.inr ⟨e',
            by rwa [show page + 1 + k = page + (k + 1) by omega], hn'⟩))
    have hRHS : ((List.range (k + 1 + 1)).map (fun i => pageResults (fetch (page + i)))).flatten
        = pageResults (fetch page)
          ++ ((List.range (k + 1)).map (fun i => pageResults (fetch (page + 1 + i)))).flatten := by
      rw [List.range_succ_eq_map, List.map_cons, List.flatten_cons, List.map_map,
        Nat.add_zero]
      congr 1
      apply congrArg List.flatten
      apply List.map_congr_left
      intro a _
      simp only [Function.comp_apply]
      rw [show page + Nat.succ a = page + 1 + a by omega]
    rw [hrec, hRHS]
    simp [pageResults, he]

/-- C3: `fetchGenres(maxPages)` visits pages 1, 2, ... sequentially, appends
the results of each non-null envelope in page order, stops at the first
envelope that is null or whose `next` is falsy, or after `maxPages` pages,
whichever comes first, and returns the pages' concatenated results (the
total Lean model never raises). -/
theorem fetchGenres_spec {α : Type} (fetch : Nat → Option (Envelope α))
    (maxPages k : Nat) (h1 : 1 ≤ k) (h2 : k ≤ maxPages)
    (hgood : ∀ p, 1 ≤ p → p < k → ∃ e, fetch p = some e ∧ e.next = true)
    (hstop : k = maxPages ∨ fetch k = none ∨
      ∃ e, fetch k = some e ∧ e.next = false) :
    fetchGenres fetch maxPages =
      ((List.range k).map (fun i => pageResults (fetch (i + 1)))).flatten := by
  obtain ⟨k', rfl⟩ : ∃ k'', k = k'' + 1 := ⟨k - 1, by omega⟩
  rw [fetchGenres]
  rw [fetchGenresLoop_spec fetch k' maxPages 1 (by omega)
    (fun j hj => by
      obtain ⟨e, he, hn⟩ := hgood (j + 1) (by omega) (by omega)
      exact ⟨e, by rwa [show 1 + j = j + 1 by omega], hn⟩)
    (by
      rcases hstop with hs | hs | ⟨e, he, hn⟩
      · exact Or.inl hs
      · exact Or.inr (Or.inl (by rwa [show 1 + k' = k' + 1 by omega]))
      · exact Or.inr (Or.inr ⟨e, by rwa [show 1 + k' = k' + 1 by omega], hn⟩))]
  apply congrArg
  apply List.map_congr_left
  intro a _
  rw [show 1 + a = a + 1 by omega]

/-- Witness for C3: two genre pages, the second with falsy `next`, under a
page cap of 5: the loop stops after page 2 and returns the two pages'
results in order. -/
theorem c3_witness :
    (1 ≤ 2 ∧ 2 ≤ 5)
    ∧ fetchGenres exFetchGenres 5 = ["g1", "g2"] := by
  refine ⟨⟨by omega, by omega⟩, ?_⟩
  have h := fetchGenres_spec exFetchGenres 5 2 (by omega) (by omega)
    (fun p hp1 hp2 => by
      have hp : p = 1 := by omega
      subst hp
      exact ⟨{ results := some ["g1"], next := true }, rfl, rfl⟩)
    (Or.inr (Or.inr ⟨{ results := some ["g2"], next := false }, rfl, rfl⟩))
  rw [h]; decide

/-! ## C4 -/

/-- C4: for every URL, page number and query string, `fetchPage` returns the
parsed JSON envelope on a successful HTTP response, and returns null —
never propagating an exception (the model is a total function) — on a
network error, a non-success HTTP status, or a JSON parse failure. -/
theorem fetchPage_failsoft_spec {J : Type} (net : String → FetchOutcome J)
    (url : String) (page : Nat) (args : String) :
    (net (buildPageUrl url page args) = .networkError →
      fetchPage net url page args = none)
    ∧ (∀ body, net (buildPageUrl url page args) = .response false body →
        fetchPage net url page args = none)
    ∧ (∀ msg, net (buildPageUrl url page args) = .response true (.error msg) →
        fetchPage net url page args = none)
    ∧ (∀ d, net (buildPageUrl url page args) = .response true (.ok d) →
        fetchPage net url page args = some d) := by
  refine ⟨?_, ?_, ?_, ?_⟩
  · intro h; rw [fetchPage, h]
  · intro body h; rw [fetchPage, h]; rfl
  · intro msg h; rw [fetchPage, h]; rfl
  · intro d h; rw [fetchPage, h]; rfl

/-- A network that always answers page requests with ok status and the
parsed value 7. -/
def exNetOk : String → FetchOutcome Nat := fun _ => .response true (.ok 7)

/-- Witness for C4: on a successful response the parsed envelope is
returned. -/
theorem c4_witness :
    exNetOk (buildPageUrl "http://x/titles/" 1 "") = .response true (.ok 7)
    ∧ fetchPage exNetOk "http://x/titles/" 1 "" = some 7 :=
  ⟨rfl, (fetchPage_failsoft_spec exNetOk "http://x/titles/" 1 "").2.2.2 7 rfl⟩

/-! ## C5 -/

/-- C5 counterexample: for the modal poster slot with a movie titled `T` and
a null `image_url`, the image source is set to the empty string, not to the
generated title-bearing placeholder; and the source substituted on load
failure is the fixed `Image non disponible` placeholder, which is not the
title-bearing one either. This falsifies the claim for the modal poster
slot. -/
theorem c5_counterexample :
    (modalPosterInit "T" none).src = ""
    ∧ (modalPosterInit "T" none).src ≠ createFallbackImageUrl "Affiche T" 210 315
    ∧ (fireModalPosterError (modalPosterInit "T" none)).src = modalPosterFallbackUrl
    ∧ modalPosterFallbackUrl ≠ createFallbackImageUrl "Affiche T" 210 315 := by
  refine ⟨rfl, by decide, rfl, by decide⟩

/-- C5 (amended): images configured through `setupImage` (grid cards and the
best-movie banner) satisfy the claim: an absent/empty `image_url` yields the
generated title-bearing `data:` placeholder immediately, and a failing URL
is replaced by that placeholder exactly once, further failures changing
nothing. The modal poster instead starts from `image_url || ''` and its
unguarded handler substitutes the fixed `Image non disponible` placeholder,
remaining installed afterwards. -/
theorem image_fallback_spec (url : Option String) (alt title : String) (w h : Nat) :
    (strTruthy url = false →
      (setupImage url alt w h).src = createFallbackImageUrl alt w h)
    ∧ (strTruthy url = true →
        (setupImage url alt w h).src = url.getD ""
        ∧ (fireImageError alt w h (setupImage url alt w h)).src =
            createFallbackImageUrl alt w h
        ∧ fireImageError alt w h (fireImageError alt w h (setupImage url alt w h)) =
            fireImageError alt w h (setupImage url alt w h))
    ∧ ((modalPosterInit title url).src = jsOrStr url ""
        ∧ (fireModalPosterError (modalPosterInit title url)).src = modalPosterFallbackUrl
        ∧ (fireModalPosterError (modalPosterInit title url)).onerrorInstalled = true) := by
  refine ⟨?_, ?_, rfl, ?_, rfl⟩
  · intro hf
    rw [setupImage]
    simp [hf]
  · intro ht
    refine ⟨by simp [setupImage, ht], by simp [setupImage, fireImageError], ?_⟩
    simp [setupImage, fireImageError]
  · rw [fireModalPosterError]
    simp [modalPosterInit]

/-- Witness for C5 (amended): a card image with a real URL shows that URL,
is replaced by the title-bearing placeholder on the first failure, and a
second failure changes nothing; a card image with a null URL gets the
placeholder immediately. -/
theorem c5_witness :
    strTruthy (some "http://img/poster.jpg") = true
    ∧ (setupImage (some "http://img/poster.jpg") "Affiche T" 300 300).src =
        "http://img/poster.jpg"
    ∧ (fireImageError "Affiche T" 300 300
        (setupImage (some "http://img/poster.jpg") "Affiche T" 300 300)).src =
        createFallbackImageUrl "Affiche T" 300 300
    ∧ fireImageError "Affiche T" 300 300 (fireImageError "Affiche T" 300 300
        (setupImage (some "http://img/poster.jpg") "Affiche T" 300 300)) =
        fireImageError "Affiche T" 300 300
          (setupImage (some "http://img/poster.jpg") "Affiche T" 300 300)
    ∧ (setupImage none "Affiche T" 300 300).src =
        createFallbackImageUrl "Affiche T" 300 300 := by
  obtain ⟨h1, h2, h3⟩ :=
    (image_fallback_spec (some "http://img/poster.jpg") "Affiche T" "T" 300 300).2.1 rfl
  exact ⟨rfl, h1, h2, h3,
    (image_fallback_spec none "Affiche T" "T" 300 300).1 rfl⟩

/-! ## C7 -/

/-- C7: card rendering is a pure function of the movie record (given the
template): two invocations of `createMovieCard` on the same record produce
structurally identical cards — same title text, same movie-id dataset
value, same image source — and likewise for the html_inject.js variant. -/
theorem createMovieCard_pure (tp : Bool) (m : Movie) (c1 c2 : Card)
    (h1 : createMovieCard tp m = some c1) (h2 : createMovieCard tp m = some c2) :
    c1 = c2 ∧ c1.titleText = c2.titleText ∧ c1.movieId = c2.movieId
    ∧ c1.img.src = c2.img.src
    ∧ ∀ d1 d2, createMovieCardHtmlInject tp m = some d1 →
        createMovieCardHtmlInject tp m = some d2 → d1 = d2 := by
  have hc : c1 = c2 := by
    have := h1.symm.trans h2
    injection this
  refine ⟨hc, by rw [hc], by rw [hc], by rw [hc], ?_⟩
  intro d1 d2 hd1 hd2
  have := hd1.symm.trans hd2
  injection this

/-- The movie record used by the C7 witness. -/
def movieC7 : Movie := { id := 1, title := "A", image_url := none }

/-- The card `createMovieCard` builds for `movieC7`. -/
def cardC7 : Card :=
  { titleText := "A", movieId := "1", img := setupImage none "Affiche A" 300 300 }

/-- Witness for C7: rendering `movieC7` twice gives the same card. -/
theorem c7_witness :
    createMovieCard true movieC7 = some cardC7 ∧ cardC7 = cardC7 :=
  ⟨rfl, (createMovieCard_pure true movieC7 cardC7 cardC7 rfl rfl).1⟩

/-! ## C8 -/

/-- The three-genre list used by the C8 counterexample and witness. -/
def genresC8 : List Genre :=
  [{ label := "Action", value := "Action" },
   { label := "Comedy", value := "Comedy" },
   { label := "Drama", value := "Drama" }]

/-- C8 counterexample: with a non-empty fetched genre list of three genres,
the second dropdown default of `injectCategories` (html_inject.js) is
`availableGenres[3]`, i.e. undefined — not the 2nd genre of the list, as
the claim's fallback demands. -/
theorem c8_counterexample :
    (injectCategoriesDefaults genresC8).2 = none
    ∧ genresC8[1]? = some { label := "Comedy", value := "Comedy" }
    ∧ (injectCategoriesDefaults genresC8).2 ≠
        some { label := "Comedy", value := "Comedy" } := by
  refine ⟨rfl, rfl, by decide⟩

/-- C8 (amended): in categories.js `initializeCategories` the dropdown
defaults are `genres[2] || genres[0]` and `genres[3] || genres[1]` — the
3rd and 4th genres, falling back to the 1st and 2nd when those indices are
absent (the fallback itself is undefined when even the fallback index is
out of range, e.g. the second default of a one-genre list); in
html_inject.js `injectCategories` the defaults are `genres[2]` and
`genres[3]` with no fallback at all. -/
theorem dropdownDefaults_spec (gs : List Genre) :
    (3 ≤ gs.length → (initializeCategoriesDefaults gs).1 = gs[2]?)
    ∧ (gs.length < 3 → (initializeCategoriesDefaults gs).1 = gs[0]?)
    ∧ (4 ≤ gs.length → (initializeCategoriesDefaults gs).2 = gs[3]?)
    ∧ (gs.length < 4 → (initializeCategoriesDefaults gs).2 = gs[1]?)
    ∧ injectCategoriesDefaults gs = (gs[2]?, gs[3]?) := by
  refine ⟨?_, ?_, ?_, ?_, rfl⟩
  · intro h
    rw [initializeCategoriesDefaults, List.getElem?_eq_getElem (show 2 < gs.length by omega)]
    rfl
  · intro h
    rw [initializeCategoriesDefaults, List.getElem?_eq_none (show gs.length ≤ 2 by omega)]
    rfl
  · intro h
    rw [initializeCategoriesDefaults, List.getElem?_eq_getElem (show 3 < gs.length by omega)]
    rfl
  · intro h
    rw [initializeCategoriesDefaults, List.getElem?_eq_none (show gs.length ≤ 3 by omega)]
    rfl

/-- Witness for C8 (amended): for a three-genre list the first default is the
3rd genre and the second default falls back to `genres[1]` in
categories.js, while html_inject.js yields `(genres[2], genres[3])`. -/
theorem c8_witness :
    3 ≤ genresC8.length
    ∧ (initializeCategoriesDefaults genresC8).1 =
        some { label := "Drama", value := "Drama" }
    ∧ genresC8.length < 4
    ∧ (initializeCategoriesDefaults genresC8).2 =
        some { label := "Comedy", value := "Comedy" }
    ∧ injectCategoriesDefaults genresC8 =
        (some { label := "Drama", value := "Drama" }, none) := by
  obtain ⟨h1, _, _, h4, h5⟩ := dropdownDefaults_spec genresC8
  exact ⟨by decide, by rw [h1 (by decide)]; rfl, by decide,
    by rw [h4 (by decide)]; rfl, by rw [h5]; decide⟩

/-! ## C9 -/

/-- C9: `closeModal` is a no-op when no modal reference is held or the held
node is detached; when it does remove a displayed modal it nulls the stored
reference and resets the body overflow to the empty string; and it is
idempotent. -/
theorem closeModal_spec (s : ModalUIState) :
    (s.modal = none → closeModal s = s)
    ∧ (∀ n, s.modal = some n → n.attached = false → closeModal s = s)
    ∧ (∀ n, s.modal = some n → n.attached = true →
        (closeModal s).modal = none ∧ (closeModal s).bodyOverflow = "")
    ∧ closeModal (closeModal s) = closeModal s := by
  obtain ⟨m, ov⟩ := s
  refine ⟨?_, ?_, ?_, ?_⟩
  · intro h
    simp only at h
    subst h
    simp [closeModal]
  · intro n h hatt
    simp only at h
    subst h
    simp [closeModal, hatt]
  · intro n h hatt
    simp only at h
    subst h
    simp [closeModal, hatt]
  · cases m with
    | none => rfl
    | some n =>
      cases hatt : n.attached with
      | false => simp [closeModal, hatt]
      | true => simp [closeModal, hatt]

/-- Witness for C9: closing an attached modal nulls the reference and resets
the overflow; closing again (and closing with no modal held) changes
nothing. -/
theorem c9_witness :
    ({ modal := some { attached := true }, bodyOverflow := "hidden" } :
        ModalUIState).modal = some { attached := true }
    ∧ (closeModal { modal := some { attached := true }, bodyOverflow := "hidden" }).modal
        = none
    ∧ (closeModal { modal := some { attached := true }, bodyOverflow := "hidden" }).bodyOverflow
        = ""
    ∧ closeModal (closeModal { modal := some { attached := true }, bodyOverflow := "hidden" })
        = closeModal { modal := some { attached := true }, bodyOverflow := "hidden" }
    ∧ closeModal { modal := none, bodyOverflow := "" } =
        { modal := none, bodyOverflow := "" } := by
  obtain ⟨_, _, h3, h4⟩ :=
    closeModal_spec { modal := some { attached := true }, bodyOverflow := "hidden" }
  obtain ⟨hm1, hm2⟩ := h3 { attached := true } rfl rfl
  exact ⟨rfl, hm1, hm2, h4,
    (closeModal_spec { modal := none, bodyOverflow := "" }).1 rfl⟩

/-! ## C6 -/

/-- C6: `formatBoxOffice` maps 123456789 to `"$123.5m"`, maps any string
already beginning with a dollar sign to itself unchanged, and maps 500 to
`"$500"` (no `m` suffix below one million). -/
theorem formatBoxOffice_examples :
    formatBoxOffice (.num 123456789) = "$123.5m"
    ∧ (∀ s : String, startsWithDollar s = true → formatBoxOffice (.str s) = s)
    ∧ formatBoxOffice (.num 500) = "$500" := by
  refine ⟨by decide, ?_, by decide⟩
  intro s h
  obtain ⟨l⟩ := s
  cases l with
  | nil => exact absurd h (by decide)
  | cons c cs =>
    rw [formatBoxOffice]
    simp only [amountFalsy, List.isEmpty_cons, if_false, Bool.false_eq_true]
    rw [h]
    simp

/-- Witness for C6: a concrete dollar-prefixed string is returned
unchanged. -/
theorem c6_witness :
    startsWithDollar "$9" = true ∧ formatBoxOffice (.str "$9") = "$9" :=
  ⟨by decide, formatBoxOffice_examples.2.1 "$9" (by decide)⟩

/-! ## C10 -/

/-- `takeWhile` of a list none of whose elements satisfies the predicate is
empty. -/
theorem takeWhile_eq_nil_of_forall_false {α : Type} (p : α → Bool) (l : List α)
    (h : ∀ a ∈ l, p a = false) : l.takeWhile p = [] := by
  cases l with
  | nil => rfl
  | cons x xs =>
    rw [List.takeWhile_cons, h x (List.mem_cons_self x xs)]
    simp

/-- Every character of a `[\d,.]+` match is a character of the scanned
string and belongs to the class. -/
theorem firstNumRun_props : ∀ l m : List Char, firstNumRun l = some m →
    ∀ c ∈ m, c ∈ l ∧ isNumRunChar c = true := by
  intro l
  induction l with
  | nil => intro m h; exact absurd h (by simp [firstNumRun])
  | cons x xs ih =>
    intro m h c hc
    rw [firstNumRun] at h
    by_cases hx : isNumRunChar x
    · rw [if_pos hx] at h
      have hm : m = x :: xs.takeWhile isNumRunChar := by injection h with h; exact h.symm
      subst hm
      rcases List.mem_cons.mp hc with rfl | hc2
      · exact ⟨List.mem_cons_self c xs, hx⟩
      · exact ⟨List.mem_cons_of_mem x ((List.takeWhile_prefix isNumRunChar).sublist.mem hc2),
          List.mem_takeWhile_imp hc2⟩
    · rw [if_neg hx] at h
      obtain ⟨h1, h2⟩ := ih m h c hc
      exact ⟨List.mem_cons_of_mem x h1, h2⟩

/-- `parseFloat` is NaN on a string consisting only of dots. -/
theorem jsParseFloat_dots (l : List Char) (h : ∀ c ∈ l, c.toNat = 46) :
    jsParseFloat l = none := by
  have hd : ∀ c ∈ l, isDigitChar c = false := by
    intro c hc
    rw [isDigitChar]
    simp [h c hc]
  cases l with
  | nil => rfl
  | cons x xs =>
    rw [jsParseFloat]
    simp only
    rw [takeWhile_eq_nil_of_forall_false isDigitChar (x :: xs) hd, List.dropWhile_cons,
      hd x (List.mem_cons_self x xs)]
    simp only [Bool.false_eq_true, if_false]
    rw [h x (List.mem_cons_self x xs)]
    simp only [Nat.reduceBEq, beq_self_eq_true, if_true]
    rw [takeWhile_eq_nil_of_forall_false isDigitChar xs
      (fun c hc => hd c (List.mem_cons_of_mem x hc))]
    rfl

/-- C10: `formatBoxOffice` is total (a Lean function, it cannot throw) and
handles inputs outside the three spec examples: every falsy input — the
number 0, null/undefined, the empty string — yields `"Non renseigné"`, and
every non-empty string that neither starts with a dollar sign nor contains
a digit is returned unchanged. -/
theorem formatBoxOffice_total_spec :
    formatBoxOffice (.num 0) = "Non renseigné"
    ∧ formatBoxOffice .nullish = "Non renseigné"
    ∧ formatBoxOffice (.str "") = "Non renseigné"
    ∧ ∀ s : String, startsWithDollar s = false → s.data ≠ [] →
        (∀ c ∈ s.data, isDigitChar c = false) → formatBoxOffice (.str s) = s := by
  refine ⟨rfl, rfl, rfl, ?_⟩
  intro s hds hne hnd
  obtain ⟨l⟩ := s
  simp only [String.data] at hne hnd
  rw [formatBoxOffice]
  have hfal : amountFalsy (.str ⟨l⟩) = false := by
    rw [amountFalsy]
    cases l with
    | nil => exact absurd rfl hne
    | cons x xs => simp
  rw [hfal]
  simp only [Bool.false_eq_true, if_false]
  rw [hds]
  simp only [Bool.false_eq_true, if_false]
  split
  · rename_i m hrun
    have hprops := firstNumRun_props l m hrun
    have hdots : ∀ c ∈ stripCommas m, c.toNat = 46 := by
      intro c hc
      rw [stripCommas] at hc
      obtain ⟨hcm, hcne⟩ := List.mem_filter.mp hc
      obtain ⟨hcl, hcls⟩ := hprops c hcm
      have hcd := hnd c hcl
      rw [isNumRunChar, hcd] at hcls
      simp only [Bool.false_or, Bool.or_eq_true, beq_iff_eq] at hcls
      rcases hcls with h44 | h46
      · rw [bne_iff_ne] at hcne
        exact absurd (by omega : c.toNat = 44) hcne
      · exact h46
    rw [jsParseFloat_dots (stripCommas m) hdots]
  · rfl

/-- Witness for C10: a digit-free, non-dollar, non-empty string (with a
comma and a dot, exercising the NaN path of `parseFloat`) is returned
unchanged. -/
theorem c10_witness :
    startsWithDollar "abc,." = false
    ∧ "abc,.".data ≠ []
    ∧ formatBoxOffice (.str "abc,.") = "abc,." :=
  ⟨by decide, by decide,
    formatBoxOffice_total_spec.2.2.2 "abc,." (by decide) (by decide) (by decide)⟩
